import Mathlib

/-!
Shallow embedding of the 9Bot pairing backend (xhclintohn/9Bot-Main-Bot-Backend).

The repository holds several near-duplicate variants of one express service:

* `src/index.js`, first variant (here suffix `A`): Postgres-backed route
  `POST /pair` plus `startPairingProcess`, a `connection.update` handler and a
  30-minute expiry timer.
* `src/index.js`, second variant (here suffix `B`): validates the phone with
  `startsWith('254')` instead of a digit-length check.
* `src/unnamed/part_000`, second variant (here suffix `D`, the "stable pairing
  edition"): requests the pairing code from inside the `connection.update`
  handler, guarded HTTP replies via the `responded` flag, a 20-second timeout.
* `src/unnamed/part_001` (here suffix `E`): minimal variant with a `sessions`
  object that is never pruned.

Machine state that matters to the claims (the per-request HTTP response, the
in-memory session registry entry, the session directory on disk, the Postgres
status string, and the pairing-code request count) is made explicit; each
event handler becomes a step function on that state.  Events of the external
WhatsApp client (`connection.update` with `open` / `close`) and timer
callbacks form the event alphabet; arbitrary interleavings are arbitrary
event lists.  This is faithful because every response write in the source is
immediately preceded by its `headersSent` / `responded` guard with no `await`
in between, so guard-check-plus-write is one atomic step of the node event
loop.
-/

/-- Body of an HTTP JSON response, restricted to the fields the claims are
about: the status code and the `success`, `pairingCode` and `sessionId`
fields (`none` when the source object literal has no such field).  Free-text
`message` and `error` fields are not modelled. -/
structure HttpResponse where
  status : Nat
  success : Option Bool
  pairingCode : Option String
  sessionId : Option String
deriving Repr, DecidableEq

/-- Outcome of the synchronous validation part of a `POST /pair` route:
either a rejection response (status code and the `error` string of the JSON
body) sent before anything is allocated, or a go-ahead carrying the cleaned
phone number. -/
inductive PairOutcome where
  | reject (status : Nat) (error : String)
  | proceed (cleanPhone : String)
deriving Repr, DecidableEq

/-- JavaScript truthiness of a request-body field that should be a string:
`undefined` (modelled `none`) and the empty string are falsy
(`if (!phoneNumber || !userId)`). -/
def jsTruthy : Option String → Bool
  | none => false
  | some s => !s.isEmpty

/-- Embedding of `phoneNumber.replace(/[^0-9]/g, '')`: keep only the ASCII
digits. -/
def cleanDigits (s : String) : String :=
  String.mk (s.toList.filter Char.isDigit)

/-- Embedding of JavaScript `s.startsWith(pre)`: the first `pre.length`
characters of `s` are exactly `pre`. -/
def jsStartsWith (s pre : String) : Bool :=
  s.toList.take pre.toList.length == pre.toList

/-- True on the `proceed` outcome: in every variant the session directory,
registry entry and (where present) database row are created only after all
validation checks have passed, so `proceed` is exactly "a session gets
created". -/
def createsSession : PairOutcome → Bool
  | .proceed _ => true
  | .reject _ _ => false

/-- True when the outcome is a rejection with HTTP status 400. -/
def rejected400 : PairOutcome → Bool
  | .reject s _ => s == 400
  | .proceed _ => false

/-- Validation of `POST /pair` in the first `src/index.js` variant
(index.js:232-276): missing fields → 400; fewer than 8 digits → 400; a
`users` row for `userId` already present (`userExists`) → 400; otherwise the
session is created with the cleaned phone. -/
def pairValidateA (phoneNumber userId : Option String) (userExists : Bool) :
    PairOutcome :=
  if !(jsTruthy phoneNumber && jsTruthy userId) then
    .reject 400 "Phone number and user ID are required"
  else
    let cleanPhone := cleanDigits (phoneNumber.getD "")
    if cleanPhone.length < 8 then
      .reject 400 "Please enter a valid phone number"
    else if userExists then
      .reject 400 "User ID already exists. Please choose a different one."
    else
      .proceed cleanPhone

/-- Validation of `POST /pair` in the second `src/index.js` variant
(index.js:535-566): instead of a digit-length check it requires the cleaned
phone to start with the characters 254; the duplicate-user check is as in
`pairValidateA`. -/
def pairValidateB (phoneNumber userId : Option String) (userExists : Bool) :
    PairOutcome :=
  if !(jsTruthy phoneNumber && jsTruthy userId) then
    .reject 400 "Phone number and user ID are required"
  else
    let cleanPhone := cleanDigits (phoneNumber.getD "")
    if !(jsStartsWith cleanPhone "254") then
      .reject 400 "Phone number must start with 62 (Indonesia)"
    else if userExists then
      .reject 400 "User ID already exists. Please choose a different one."
    else
      .proceed cleanPhone

/-- Validation of `POST /pair` in both `src/unnamed/part_000` variants
(part_000:169-192 and part_000:542-565): missing fields → 400, fewer than 8
digits → 400; there is no duplicate-user check (the function takes no
registry argument at all). -/
def pairValidateP0 (phoneNumber userId : Option String) : PairOutcome :=
  if !(jsTruthy phoneNumber && jsTruthy userId) then
    .reject 400 "Phone number and user ID are required"
  else
    let cleanPhone := cleanDigits (phoneNumber.getD "")
    if cleanPhone.length < 8 then
      .reject 400 "Please enter a valid phone number"
    else
      .proceed cleanPhone

/-!
Variant A: `startPairingProcess` with its `connection.update` handler and the
30-minute expiry timer (`src/index.js:291-428`).
-/

/-- Registry value stored by the first `src/index.js` variant:
`activePairingSessions.set(userId, { sock, saveCreds, sessionPath,
connected: false })` — only the `connected` flag ever changes. -/
structure SessionA where
  connected : Bool
deriving Repr, DecidableEq

/-- Observable state of one variant-A pairing request: the registry entry
under this `userId`, whether the session directory still exists, the `status`
column of the `users` row, whether the HTTP response has been written
(`res.headersSent`), how many times `sock.requestPairingCode` has been
called, and the responses written so far (in order). -/
structure StateA where
  registry : Option SessionA
  files : Bool
  dbStatus : String
  headersSent : Bool
  pairRequests : Nat
  responses : List HttpResponse
deriving Repr, DecidableEq

/-- State right after the variant-A route has validated the input, created
the session directory and inserted the `users` row with status `pairing`
(index.js:262-279), at the moment `startPairingProcess` is entered. -/
def initA : StateA :=
  { registry := none
    files := true
    dbStatus := "pairing"
    headersSent := false
    pairRequests := 0
    responses := [] }

/-- Catch block of `startPairingProcess` (index.js:410-427): drop the session
directory and registry entry, set status `failed`, and answer 500 unless the
response was already written. -/
def catchA (s : StateA) : StateA :=
  let s1 := { s with registry := none, files := false, dbStatus := "failed" }
  if s1.headersSent then s1
  else
    { s1 with
      headersSent := true
      responses := s1.responses ++
        [{ status := 500, success := some false, pairingCode := none,
           sessionId := none }] }

/-- Straight-line body of `startPairingProcess` (index.js:291-338 and its
catch block).  `setupErr` models `fetchLatestBaileysVersion` /
`useMultiFileAuthState` / socket construction throwing before the session is
stored; `registered` is `sock.authState.creds.registered`; `pairResult` is
the outcome of `await sock.requestPairingCode(phoneNumber)` (`none` = it
threw).  When `registered` is true the pairing-code block — the only
response-writing code on the success path — is skipped entirely and no
response is written.  The response object written on success carries no
`sessionId` field (index.js:332-337). -/
def startPairingProcessA (setupErr registered : Bool)
    (pairResult : Option String) (s : StateA) : StateA :=
  if setupErr then catchA s
  else
    let s1 := { s with registry := some { connected := false } }
    if registered then s1
    else
      let s2 := { s1 with pairRequests := s1.pairRequests + 1 }
      match pairResult with
      | none => catchA s2
      | some code =>
        let s3 := { s2 with dbStatus := "waiting_for_user" }
        if s3.headersSent then s3
        else
          { s3 with
            headersSent := true
            responses := s3.responses ++
              [{ status := 200, success := some true,
                 pairingCode := some code, sessionId := none }] }

/-- Asynchronous events that can reach a variant-A session after
`startPairingProcess` returns: a `connection.update` with `connection ===
'open'` (carrying whether the subsequent deploy pipeline succeeded), one with
`connection === 'close'`, the 30-minute expiry timer firing
(index.js:396-408), and the 10-second post-connect cleanup timer firing
(index.js:384-387). -/
inductive EventA where
  | connOpen (deployOk : Bool)
  | connClose
  | timerFire
  | cleanupFire
deriving Repr, DecidableEq

/-- One event of the variant-A `connection.update` handler / timers
(index.js:342-408).  `open`: the handler returns early when the registry
entry is gone, otherwise sets `session.connected = true` (synchronously,
before its first `await`) and runs the deploy pipeline, whose final database
status is `deployed` or `deployment_failed`; it writes no HTTP response.
`close`: logs only.  Expiry timer: only when the entry exists and is not
connected, it deletes the entry, removes the session directory and sets
status `expired`; it writes no HTTP response.  Cleanup timer: removes
directory and entry. -/
def stepA (s : StateA) : EventA → StateA
  | .connOpen deployOk =>
    match s.registry with
    | none => s
    | some _ =>
      { s with
        registry := some { connected := true }
        dbStatus := if deployOk then "deployed" else "deployment_failed" }
  | .connClose => s
  | .timerFire =>
    match s.registry with
    | none => s
    | some sess =>
      if sess.connected then s
      else { s with registry := none, files := false, dbStatus := "expired" }
  | .cleanupFire => { s with registry := none, files := false }

/-- Processing of a whole sequence of post-`startPairingProcess` events in
variant A. -/
def runA (s : StateA) (events : List EventA) : StateA :=
  events.foldl stepA s

/-!
Variant D: the "stable pairing edition" of `src/unnamed/part_000`
(part_000:539-746), whose `onConnectionUpdate` handler requests the pairing
code once the socket reports `open` and guards the HTTP reply with the
`responded` flag, backed by a 20-second timeout.
-/

/-- Registry value stored by the stable variant:
`activeSessions.set(sessionId, { sock, saveCreds, sessionPath, userId,
connected: false })`.  No code path of this variant ever sets `connected` to
true. -/
structure SessionD where
  connected : Bool
deriving Repr, DecidableEq

/-- Observable state of one stable-variant pairing request.  In the source
the reply guard is `!responded && !res.headersSent`; both flags start false
and every reply sets both in the same synchronous step, so one `responded`
field tracks them. -/
structure StateD where
  sessionId : String
  responded : Bool
  registry : Option SessionD
  files : Bool
  pairRequests : Nat
  responses : List HttpResponse
deriving Repr, DecidableEq

/-- State right after the stable variant route has validated the input,
created the session directory, built the socket and stored the session
(part_000:559-621), with the `responded` flag just declared false
(part_000:628). -/
def initD (sessionId : String) : StateD :=
  { sessionId := sessionId
    responded := false
    registry := some { connected := false }
    files := true
    pairRequests := 0
    responses := [] }

/-- One event of the stable variant: `onConnectionUpdate`
(part_000:630-699) plus the 20-second timeout (part_000:718-730).

`connOpen pairResult`: every `open` calls `sock.requestPairingCode` (there is
no once-only guard on the request itself); on success the guarded reply is
`{success: true, pairingCode, sessionId}`, on failure the guarded reply is a
500 and — guarded or not — the socket is ended, the session directory removed
and the registry entry deleted (part_000:671-674).

`connClose`: guarded 500 reply, then unconditional cleanup
(part_000:679-693).

`timeoutFire`: when no reply has been sent yet, a 504 reply plus cleanup,
all inside the guard (part_000:718-730). -/
inductive EventD where
  | connOpen (pairResult : Option String)
  | connClose
  | timeoutFire
deriving Repr, DecidableEq

/-- Step function of the stable variant, following `onConnectionUpdate` and
the timeout callback. -/
def stepD (s : StateD) : EventD → StateD
  | .connOpen pairResult =>
    let s1 := { s with pairRequests := s.pairRequests + 1 }
    match pairResult with
    | some code =>
      if s1.responded then s1
      else
        { s1 with
          responded := true
          responses := s1.responses ++
            [{ status := 200, success := some true, pairingCode := some code,
               sessionId := some s.sessionId }] }
    | none =>
      let s2 :=
        if s1.responded then s1
        else
          { s1 with
            responded := true
            responses := s1.responses ++
              [{ status := 500, success := some false, pairingCode := none,
                 sessionId := none }] }
      { s2 with registry := none, files := false }
  | .connClose =>
    let s1 :=
      if s.responded then s
      else
        { s with
          responded := true
          responses := s.responses ++
            [{ status := 500, success := some false, pairingCode := none,
               sessionId := none }] }
    { s1 with registry := none, files := false }
  | .timeoutFire =>
    if s.responded then s
    else
      { s with
        responded := true
        registry := none
        files := false
        responses := s.responses ++
          [{ status := 504, success := some false, pairingCode := none,
             sessionId := none }] }

/-- Processing of a whole sequence of events in the stable variant. -/
def runD (s : StateD) (events : List EventD) : StateD :=
  events.foldl stepD s

/-- True on the `open` events of the stable variant. -/
def isOpenD : EventD → Bool
  | .connOpen _ => true
  | _ => false

/-- Count of `open` events in a stable-variant event sequence: each one makes
the handler call `sock.requestPairingCode` once. -/
def countOpensD (events : List EventD) : Nat :=
  events.countP isOpenD

/-- Body returned by `GET /status/:sessionId` in the stable variant,
restricted to the fields the claims are about. -/
structure StatusResponse where
  success : Bool
  connected : Bool
deriving Repr, DecidableEq

/-- The stable variant status route (part_000:749-766): when the queried id
is this session and its registry entry is live it reports the session's
`connected` flag, otherwise the not-found shape `{success: true, connected:
false}`. -/
def statusRouteD (s : StateD) (sid : String) : StatusResponse :=
  if sid = s.sessionId then
    match s.registry with
    | some sess => { success := true, connected := sess.connected }
    | none => { success := true, connected := false }
  else { success := true, connected := false }

/-!
Variant E: `src/unnamed/part_001`, whose `sessions` object is keyed by
`userId` and never pruned — there is no expiry timer and no delete anywhere
in that file.
-/

/-- Entry of the `sessions` object in part_001:
`sessions[userId] = { sock, ready: false, code: null }`. -/
structure SessionE where
  ready : Bool
  code : Option String
deriving Repr, DecidableEq

/-- One `connection.update` event as destructured by part_001:40-55: the
optional `connection` string and the optional `pairingCode` field of the
update object. -/
structure EventE where
  connection : Option String
  pairingCode : Option String
deriving Repr, DecidableEq

/-- The part_001 `connection.update` handler (part_001:40-55): a truthy
`pairingCode` overwrites the stored code, `open` sets `ready`, `close` only
logs.  No branch deletes the entry; the registry argument is the entry for
this `userId` (`none` would mean it had been removed, which no code path
does). -/
def stepE (entry : Option SessionE) (e : EventE) : Option SessionE :=
  match entry with
  | none => none
  | some sess =>
    let sess1 :=
      match e.pairingCode with
      | some c => { sess with code := some c }
      | none => sess
    if e.connection = some "open" then some { sess1 with ready := true }
    else some sess1

/-- Processing of a whole sequence of `connection.update` events in
part_001. -/
def runE (entry : Option SessionE) (events : List EventE) : Option SessionE :=
  events.foldl stepE entry

/-!
The Heroku app name built by `deployToHeroku`, identical in every variant
(index.js:147, index.js:702, part_000:98, part_000:456).
-/

/-- Character class of `replace(/[^a-z0-9-]/g, '')`: lowercase ASCII letters,
digits and the hyphen. -/
def herokuAllowed (c : Char) : Bool :=
  (('a' ≤ c && c ≤ 'z') || ('0' ≤ c && c ≤ '9')) || c = '-'

/-- Embedding of the app-name expression inside `deployToHeroku`:
`` `toxic-md-${userId}-${Date.now()}`.toLowerCase().replace(/[^a-z0-9-]/g, '').substring(0, 30) ``,
with `Date.now()` passed in as the natural number `now`. -/
def herokuAppName (userId : String) (now : Nat) : String :=
  let template := "toxic-md-" ++ userId ++ "-" ++ toString now
  let lowered := template.toLower
  let replaced := String.mk (lowered.toList.filter herokuAllowed)
  String.mk (replaced.toList.take 30)

/-!
Invariants used by the proofs.
-/

/-- Response-count invariant of the stable variant: the number of responses
written so far is 1 when the `responded` flag is set and 0 otherwise. -/
def respOkD (s : StateD) : Prop :=
  s.responses.length = if s.responded then 1 else 0

/-- Response-count invariant of variant A, with `res.headersSent` playing the
role of the flag. -/
def respOkA (s : StateA) : Prop :=
  s.responses.length = if s.headersSent then 1 else 0

/-- After a variant-A session has connected (or its registry entry is gone),
the expiry timer finds nothing to expire: every live registry entry is a
connected one. -/
def connectedOrGoneA (s : StateA) : Prop :=
  ∀ sess, s.registry = some sess → sess.connected = true



/-!
Helper lemmas.
-/

/-- No asynchronous variant-A event writes an HTTP response. -/
theorem stepA_responses (s : StateA) (e : EventA) :
    (stepA s e).responses = s.responses := by
  cases e with
  | connOpen d => cases hr : s.registry <;> simp [stepA, hr]
  | connClose => rfl
  | timerFire =>
    cases hr : s.registry with
    | none => simp [stepA, hr]
    | some sess => by_cases hc : sess.connected <;> simp [stepA, hr, hc]
  | cleanupFire => rfl

/-- No asynchronous variant-A event touches `res.headersSent`. -/
theorem stepA_headersSent (s : StateA) (e : EventA) :
    (stepA s e).headersSent = s.headersSent := by
  cases e with
  | connOpen d => cases hr : s.registry <;> simp [stepA, hr]
  | connClose => rfl
  | timerFire =>
    cases hr : s.registry with
    | none => simp [stepA, hr]
    | some sess => by_cases hc : sess.connected <;> simp [stepA, hr, hc]
  | cleanupFire => rfl

/-- No asynchronous variant-A event calls `sock.requestPairingCode`. -/
theorem stepA_pairRequests (s : StateA) (e : EventA) :
    (stepA s e).pairRequests = s.pairRequests := by
  cases e with
  | connOpen d => cases hr : s.registry <;> simp [stepA, hr]
  | connClose => rfl
  | timerFire =>
    cases hr : s.registry with
    | none => simp [stepA, hr]
    | some sess => by_cases hc : sess.connected <;> simp [stepA, hr, hc]
  | cleanupFire => rfl

/-- Responses are unchanged across any variant-A event sequence. -/
theorem runA_responses (s : StateA) (events : List EventA) :
    (runA s events).responses = s.responses := by
  induction events generalizing s with
  | nil => rfl
  | cons e rest ih =>
    rw [runA, List.foldl_cons]
    rw [show List.foldl stepA (stepA s e) rest = runA (stepA s e) rest from rfl]
    rw [ih, stepA_responses]

/-- The pairing-code request count is unchanged across any variant-A event
sequence. -/
theorem runA_pairRequests (s : StateA) (events : List EventA) :
    (runA s events).pairRequests = s.pairRequests := by
  induction events generalizing s with
  | nil => rfl
  | cons e rest ih =>
    rw [runA, List.foldl_cons]
    rw [show List.foldl stepA (stepA s e) rest = runA (stepA s e) rest from rfl]
    rw [ih, stepA_pairRequests]

/-- Every single stable-variant event preserves the response-count
invariant. -/
theorem respOkD_step (s : StateD) (e : EventD) (h : respOkD s) :
    respOkD (stepD s e) := by
  cases e with
  | connOpen pr =>
    cases pr with
    | some code => by_cases hr : s.responded <;> simp_all [stepD, respOkD]
    | none => by_cases hr : s.responded <;> simp_all [stepD, respOkD]
  | connClose => by_cases hr : s.responded <;> simp_all [stepD, respOkD]
  | timeoutFire => by_cases hr : s.responded <;> simp_all [stepD, respOkD]

/-- The `responded` flag is never reset by any stable-variant event. -/
theorem respondedMonoD (s : StateD) (e : EventD) (h : s.responded = true) :
    (stepD s e).responded = true := by
  cases e with
  | connOpen pr => cases pr <;> simp [stepD, h]
  | connClose => simp [stepD, h]
  | timeoutFire => simp [stepD, h]

/-- Processing a timeout always leaves the `responded` flag set. -/
theorem stepD_timeout_responded (s : StateD) :
    (stepD s EventD.timeoutFire).responded = true := by
  by_cases hr : s.responded <;> simp [stepD, hr]

/-- The response-count invariant holds across any stable-variant event
sequence. -/
theorem respOkD_run (s : StateD) (events : List EventD) (h : respOkD s) :
    respOkD (runD s events) := by
  induction events generalizing s with
  | nil => exact h
  | cons e rest ih =>
    rw [runD, List.foldl_cons]
    exact ih (stepD s e) (respOkD_step s e h)

/-- Once the `responded` flag is set it stays set across any stable-variant
event sequence. -/
theorem respondedMonoD_run (s : StateD) (events : List EventD)
    (h : s.responded = true) : (runD s events).responded = true := by
  induction events generalizing s with
  | nil => exact h
  | cons e rest ih =>
    rw [runD, List.foldl_cons]
    exact ih (stepD s e) (respondedMonoD s e h)

/-- From a state that satisfies the invariant and has already answered,
exactly one response has been written, forever. -/
theorem respDone_run (s : StateD) (events : List EventD) (h1 : respOkD s)
    (h2 : s.responded = true) : (runD s events).responses.length = 1 := by
  have hinv := respOkD_run s events h1
  have hresp := respondedMonoD_run s events h2
  rw [respOkD, hresp] at hinv
  simpa using hinv

/-- Each stable-variant event adds one pairing-code request exactly when it
is an `open` event. -/
theorem stepD_pairRequests (s : StateD) (e : EventD) :
    (stepD s e).pairRequests =
      s.pairRequests + (if isOpenD e then 1 else 0) := by
  cases e with
  | connOpen pr =>
    cases pr with
    | some code => by_cases hr : s.responded <;> simp [stepD, isOpenD, hr]
    | none => by_cases hr : s.responded <;> simp [stepD, isOpenD, hr]
  | connClose => by_cases hr : s.responded <;> simp [stepD, isOpenD, hr]
  | timeoutFire => by_cases hr : s.responded <;> simp [stepD, isOpenD, hr]

/-- The request count over a stable-variant event sequence is the number of
`open` events processed. -/
theorem runD_pairRequests (s : StateD) (events : List EventD) :
    (runD s events).pairRequests = s.pairRequests + countOpensD events := by
  induction events generalizing s with
  | nil => simp [runD, countOpensD]
  | cons e rest ih =>
    rw [runD, List.foldl_cons]
    rw [show List.foldl stepD (stepD s e) rest = runD (stepD s e) rest from
      rfl]
    rw [ih, stepD_pairRequests]
    simp only [countOpensD, List.countP_cons]
    by_cases ho : isOpenD e <;> simp [ho]
    omega

/-- After an `open` event every live variant-A registry entry is a connected
one (the handler either returns early on a missing entry or sets
`session.connected = true`). -/
theorem cogA_open (s : StateA) (d : Bool) :
    connectedOrGoneA (stepA s (EventA.connOpen d)) := by
  intro sess hsess
  cases hr : s.registry with
  | none => simp [stepA, hr] at hsess
  | some old =>
    simp [stepA, hr] at hsess
    rw [← hsess]

/-- On a state whose live entry (if any) is connected, the expiry timer is a
no-op: it neither deletes the entry, nor touches the files, nor sets the
status to `expired`. -/
theorem cogA_timer_noop (s : StateA) (h : connectedOrGoneA s) :
    stepA s EventA.timerFire = s := by
  cases hr : s.registry with
  | none => simp [stepA, hr]
  | some sess => simp [stepA, hr, h sess hr]

/-- The connected-or-gone property is preserved by every variant-A event. -/
theorem cogA_step (s : StateA) (e : EventA) (h : connectedOrGoneA s) :
    connectedOrGoneA (stepA s e) := by
  cases e with
  | connOpen d => exact cogA_open s d
  | connClose => exact h
  | timerFire => rw [cogA_timer_noop s h]; exact h
  | cleanupFire => intro sess hsess; simp [stepA] at hsess

/-- The connected-or-gone property is preserved by any variant-A event
sequence. -/
theorem cogA_run (s : StateA) (events : List EventA)
    (h : connectedOrGoneA s) : connectedOrGoneA (runA s events) := by
  induction events generalizing s with
  | nil => exact h
  | cons e rest ih =>
    rw [runA, List.foldl_cons]
    exact ih (stepA s e) (cogA_step s e h)

/-- The variant-A response-count invariant survives the catch block. -/
theorem respOkA_catch (s : StateA) (h : respOkA s) : respOkA (catchA s) := by
  by_cases hs : s.headersSent <;> simp_all [catchA, respOkA]

/-- The variant-A response-count invariant survives the whole straight-line
body of `startPairingProcess`. -/
theorem respOkA_start (setupErr registered : Bool) (pairResult : Option String)
    (s : StateA) (h : respOkA s) :
    respOkA (startPairingProcessA setupErr registered pairResult s) := by
  cases setupErr with
  | true => exact respOkA_catch s h
  | false =>
    cases registered with
    | true => simpa [startPairingProcessA, respOkA] using h
    | false =>
      cases pairResult with
      | none =>
        exact respOkA_catch _ (by simpa [respOkA] using h)
      | some code =>
        by_cases hs : s.headersSent <;>
          simp_all [startPairingProcessA, respOkA]

/-- The `res.headersSent` flag is unchanged across any variant-A event
sequence. -/
theorem runA_headersSent (s : StateA) (events : List EventA) :
    (runA s events).headersSent = s.headersSent := by
  induction events generalizing s with
  | nil => rfl
  | cons e rest ih =>
    rw [runA, List.foldl_cons]
    rw [show List.foldl stepA (stepA s e) rest = runA (stepA s e) rest from
      rfl]
    rw [ih, stepA_headersSent]

/-- The variant-A response-count invariant survives any event sequence. -/
theorem respOkA_run (s : StateA) (events : List EventA) (h : respOkA s) :
    respOkA (runA s events) := by
  rw [respOkA, runA_responses, runA_headersSent]
  exact h

/-- No part_001 `connection.update` event ever removes the `sessions[userId]`
entry. -/
theorem runE_isSome (entry : SessionE) (events : List EventE) :
    (runE (some entry) events).isSome = true := by
  induction events generalizing entry with
  | nil => rfl
  | cons e rest ih =>
    rw [runE, List.foldl_cons]
    have hstep : ∃ x, stepE (some entry) e = some x := by
      by_cases hc : e.connection = some "open" <;> simp [stepE, hc]
    obtain ⟨x, hx⟩ := hstep
    rw [hx]
    exact ih x

/-!
Claim theorems.
-/

/-- Claim C6 (confirmed): once a variant-A session has processed an `open`
event — reaching Connected before the expiry timeout — a later firing of the
30-minute expiry timer, after any further events whatsoever, changes nothing:
it does not transition the session to Expired, does not remove the registry
entry or the files, and does not touch the status.  Exactly one of
expire/connect wins, never both. -/
theorem no_expiry_after_connect (d : Bool) (s : StateA)
    (post : List EventA) :
    stepA (runA (stepA s (EventA.connOpen d)) post) EventA.timerFire =
      runA (stepA s (EventA.connOpen d)) post :=
  cogA_timer_noop _ (cogA_run _ post (cogA_open s d))

/-- Claim C9 (confirmed): in the first `src/index.js` variant, when
`sock.authState.creds.registered` is true and no exception is thrown,
`startPairingProcess` writes no HTTP response — not on its success path and
not from any later connection event or timer — so the `/pair` request hangs
forever. -/
theorem registered_creds_send_no_response (pairResult : Option String)
    (events : List EventA) :
    (runA (startPairingProcessA false true pairResult initA)
      events).responses = [] := by
  rw [runA_responses]
  simp [startPairingProcessA, initA]

/-- Claim C10 (confirmed): for every `userId` and every value of
`Date.now()`, the Heroku app name built by `deployToHeroku` has at most 30
characters, all of which are lowercase ASCII letters, digits or hyphens. -/
theorem heroku_app_name_length_and_charset (userId : String) (now : Nat) :
    (herokuAppName userId now).length ≤ 30 ∧
    (herokuAppName userId now).toList.all herokuAllowed = true := by
  constructor
  · show (((("toxic-md-" ++ userId ++ "-" ++ toString now).toLower).toList.filter
      herokuAllowed).take 30).length ≤ 30
    rw [List.length_take]
    exact Nat.min_le_left _ _
  · rw [List.all_eq_true]
    show ∀ c ∈ ((("toxic-md-" ++ userId ++ "-" ++ toString now).toLower).toList.filter
      herokuAllowed).take 30, herokuAllowed c
    intro c hc
    exact List.of_mem_filter (List.take_subset _ _ hc)

/-- Claim C1 counterexample: in the first `src/index.js` variant, a `/pair`
request whose credentials are already registered receives zero responses —
even after the expiry timer has fired and a close event has arrived — so the
response is not sent exactly once. -/
theorem registered_session_zero_responses_cx :
    (runA (startPairingProcessA false true none initA)
      [EventA.timerFire, EventA.connClose]).responses = [] := by
  decide

/-- Claim C1 (corrected): at most one HTTP response is ever written per
`/pair` request — in the stable part_000 variant (guarded by `responded`)
over any event interleaving, and in the first `src/index.js` variant
(guarded by `res.headersSent`).  In the stable variant the response is sent
exactly once provided its 20-second timeout fires (which it does absent a
process crash); the first `src/index.js` variant however sends nothing at
all when the credentials are already registered. -/
theorem pair_response_at_most_once :
    (∀ (sid : String) (events : List EventD),
        (runD (initD sid) events).responses.length ≤ 1) ∧
    (∀ (sid : String) (events : List EventD),
        EventD.timeoutFire ∈ events →
        (runD (initD sid) events).responses.length = 1) ∧
    (∀ (setupErr registered : Bool) (pairResult : Option String)
        (events : List EventA),
        (runA (startPairingProcessA setupErr registered pairResult initA)
          events).responses.length ≤ 1) := by
  have hinitD : ∀ sid : String, respOkD (initD sid) := by
    intro sid; simp [respOkD, initD]
  refine ⟨?_, ?_, ?_⟩
  · intro sid events
    have h := respOkD_run (initD sid) events (hinitD sid)
    rw [respOkD] at h
    rw [h]
    by_cases hr : (runD (initD sid) events).responded <;> simp [hr]
  · intro sid events hmem
    induction events generalizing sid with
    | nil => simp at hmem
    | cons e rest ih =>
      rw [runD, List.foldl_cons]
      rcases List.mem_cons.mp hmem with he | he
      · rw [← he]
        rw [show List.foldl stepD (stepD (initD sid) EventD.timeoutFire) rest
          = runD (stepD (initD sid) EventD.timeoutFire) rest from rfl]
        exact respDone_run _ rest
          (respOkD_step _ _ (hinitD sid)) (stepD_timeout_responded _)
      · by_cases hr : (stepD (initD sid) e).responded
        · rw [show List.foldl stepD (stepD (initD sid) e) rest
            = runD (stepD (initD sid) e) rest from rfl]
          exact respDone_run _ rest (respOkD_step _ _ (hinitD sid)) hr
        · have hs : stepD (initD sid) e = initD sid ∨
              (stepD (initD sid) e).responses.length = 1 := by
            have hstep := respOkD_step (initD sid) e (hinitD sid)
            rw [respOkD] at hstep
            cases e with
            | connOpen pr =>
              cases pr with
              | some code => simp_all [stepD, initD]
              | none => simp_all [stepD, initD]
            | connClose => simp_all [stepD, initD]
            | timeoutFire => simp_all [stepD, initD]
          rcases hs with hs | hs
          · rw [show List.foldl stepD (stepD (initD sid) e) rest
              = runD (stepD (initD sid) e) rest from rfl, hs]
            exact ih sid he
          · rw [show List.foldl stepD (stepD (initD sid) e) rest
              = runD (stepD (initD sid) e) rest from rfl]
            have hstep := respOkD_step (initD sid) e (hinitD sid)
            rw [respOkD] at hstep
            rw [hs] at hstep
            by_cases hr2 : (stepD (initD sid) e).responded
            · exact respDone_run _ rest (respOkD_step _ _ (hinitD sid)) hr2
            · simp [hr2] at hstep
  · intro setupErr registered pairResult events
    have h := respOkA_run (startPairingProcessA setupErr registered
      pairResult initA) events
      (respOkA_start setupErr registered pairResult initA
        (by simp [respOkA, initA]))
    rw [respOkA] at h
    rw [h]
    by_cases hr : (runA (startPairingProcessA setupErr registered pairResult
      initA) events).headersSent <;> simp [hr]

/-- Claim C1 witness: the exactly-once part of `pair_response_at_most_once`
instantiated on a concrete session whose only event is the 20-second timeout
firing. -/
theorem pair_response_at_most_once_witness :
    (runD (initD "SESSID9876") [EventD.timeoutFire]).responses.length = 1 :=
  pair_response_at_most_once.2.1 "SESSID9876" [EventD.timeoutFire]
    (by decide)

/-- Claim C2 counterexample: in the stable part_000 variant, two `open`
events from the external client make the handler call
`sock.requestPairingCode` twice for the same session — the request is not
guarded by `responded` or by any once-only flag. -/
theorem stable_variant_two_opens_two_requests_cx :
    (runD (initD "SESSIDAB12")
      [EventD.connOpen (some "AAAA-AAAA"),
       EventD.connOpen (some "BBBB-BBBB")]).pairRequests = 2 := by
  decide

/-- Claim C2 (corrected): in the first `src/index.js` variant the pairing
code is requested at most once per session — the request lives in the
straight-line body of `startPairingProcess`, not in any event handler, so
repeated readiness events never repeat it.  In the stable part_000 variant,
by contrast, the number of `sock.requestPairingCode` calls equals the number
of `open` events processed, so a readiness event that fires n times causes n
requests (the `responded` guard limits only the HTTP reply, not the
request). -/
theorem pairing_code_request_count :
    (∀ (setupErr registered : Bool) (pairResult : Option String)
        (events : List EventA),
        (runA (startPairingProcessA setupErr registered pairResult initA)
          events).pairRequests ≤ 1) ∧
    (∀ (sid : String) (events : List EventD),
        (runD (initD sid) events).pairRequests = countOpensD events) := by
  constructor
  · intro setupErr registered pairResult events
    rw [runA_pairRequests]
    cases setupErr <;> cases registered <;> cases pairResult <;>
      simp [startPairingProcessA, catchA, initA]
  · intro sid events
    rw [runD_pairRequests]
    simp [initD]

/-- Claim C3 counterexample: the second `src/index.js` variant accepts the
3-digit phone number 254 (its check is `startsWith('254')`, not a length
bound), proceeding to create a session for a number with fewer than 8
digits instead of rejecting it with 400. -/
theorem variantB_accepts_short_phone_cx :
    pairValidateB (some "254") (some "alice") false =
      PairOutcome.proceed "254" ∧
    (cleanDigits "254").length < 8 := by
  constructor
  · decide
  · decide

/-- Claim C3 (corrected): in the variants that validate digit length — the
first `src/index.js` variant and both part_000 variants — every `/pair`
request whose phone number has fewer than 8 digits is rejected with a 400
error before any session is created; the second `src/index.js` variant
instead checks `startsWith('254')` and `src/unnamed/part_001` validates
nothing. -/
theorem short_phone_rejected_before_session
    (phoneNumber userId : Option String) (userExists : Bool)
    (h : (cleanDigits (phoneNumber.getD "")).length < 8) :
    rejected400 (pairValidateA phoneNumber userId userExists) = true ∧
    createsSession (pairValidateA phoneNumber userId userExists) = false ∧
    rejected400 (pairValidateP0 phoneNumber userId) = true ∧
    createsSession (pairValidateP0 phoneNumber userId) = false := by
  by_cases hp : (jsTruthy phoneNumber && jsTruthy userId) = true <;>
    simp [pairValidateA, pairValidateP0, hp, h, rejected400, createsSession]

/-- Claim C3 witness: `short_phone_rejected_before_session` instantiated on
the spec scenario `phoneNumber: "123"`. -/
theorem short_phone_rejected_witness :
    rejected400 (pairValidateA (some "123") (some "alice") false) = true ∧
    createsSession (pairValidateA (some "123") (some "alice") false) =
      false ∧
    rejected400 (pairValidateP0 (some "123") (some "alice")) = true ∧
    createsSession (pairValidateP0 (some "123") (some "alice")) = false :=
  short_phone_rejected_before_session (some "123") (some "alice") false
    (by decide)

/-- Claim C4 counterexample: in the first `src/index.js` variant a second
`/pair` call with an already-used `userId` is rejected with status 400, not
with the claimed 409 ConflictError. -/
theorem duplicate_user_not_409_cx :
    pairValidateA (some "12025551234") (some "alice") true =
      PairOutcome.reject 400
        "User ID already exists. Please choose a different one." := by
  decide

/-- Claim C4 (corrected): in the Postgres-backed first `src/index.js`
variant, a second `/pair` call with a well-formed phone number and a
`userId` that already has a `users` row is rejected — with status 400 and
the duplicate-user error, not 409 — and no second session is created.  (The
part_000 and part_001 variants apply no duplicate-user policy at all:
`pairValidateP0` takes no user-registry argument.) -/
theorem duplicate_user_rejected_with_400
    (phoneNumber userId : Option String)
    (h1 : jsTruthy phoneNumber = true) (h2 : jsTruthy userId = true)
    (h3 : 8 ≤ (cleanDigits (phoneNumber.getD "")).length) :
    pairValidateA phoneNumber userId true =
      PairOutcome.reject 400
        "User ID already exists. Please choose a different one." ∧
    createsSession (pairValidateA phoneNumber userId true) = false := by
  have hlt : ¬(cleanDigits (phoneNumber.getD "")).length < 8 :=
    Nat.not_lt.mpr h3
  simp [pairValidateA, h1, h2, hlt, createsSession]

/-- Claim C4 witness: `duplicate_user_rejected_with_400` instantiated on the
spec scenario inputs. -/
theorem duplicate_user_rejected_witness :
    pairValidateA (some "12025551234") (some "alice") true =
      PairOutcome.reject 400
        "User ID already exists. Please choose a different one." ∧
    createsSession (pairValidateA (some "12025551234") (some "alice")
      true) = false :=
  duplicate_user_rejected_with_400 (some "12025551234") (some "alice")
    (by decide) (by decide) (by decide)

/-- Claim C5 counterexample: in `src/unnamed/part_001` a session that never
sees an `open` event is still in the `sessions` object, unchanged, after
repeated close events — that variant has no expiry timer and no delete, so
the session never reaches an Expired state and is never removed. -/
theorem part001_session_never_removed_cx :
    runE (some { ready := false, code := none })
      [{ connection := some "close", pairingCode := none },
       { connection := some "close", pairingCode := none }] =
      some { ready := false, code := none } := by
  decide

/-- Claim C5 (corrected): in the first `src/index.js` variant, when the
30-minute expiry timer fires on a session that has not connected, the
session is expired in one step — registry entry removed, session directory
deleted, database status set to `expired`.  In `src/unnamed/part_001`,
however, no `connection.update` event ever removes the `sessions[userId]`
entry, so a session whose client never emits `open` is never expired or
removed at all. -/
theorem expiry_behaviour_by_variant :
    (∀ (s : StateA) (sess : SessionA), s.registry = some sess →
        sess.connected = false →
        stepA s EventA.timerFire =
          { s with registry := none, files := false,
                   dbStatus := "expired" }) ∧
    (∀ (entry : SessionE) (events : List EventE),
        (runE (some entry) events).isSome = true) := by
  constructor
  · intro s sess hreg hconn
    simp [stepA, hreg, hconn]
  · intro entry events
    exact runE_isSome entry events

/-- Claim C5 witness: the expiry half of `expiry_behaviour_by_variant`
instantiated on a concrete unconnected session. -/
theorem expiry_behaviour_witness :
    stepA
      { registry := some { connected := false }, files := true,
        dbStatus := "waiting_for_user", headersSent := true,
        pairRequests := 1, responses := [] } EventA.timerFire =
      { registry := none, files := false, dbStatus := "expired",
        headersSent := true, pairRequests := 1, responses := [] } :=
  expiry_behaviour_by_variant.1
    { registry := some { connected := false }, files := true,
      dbStatus := "waiting_for_user", headersSent := true,
      pairRequests := 1, responses := [] }
    { connected := false } rfl rfl

/-- Claim C7 counterexample: in the first `src/index.js` variant the
successful 200 response carries `success: true` and the pairing code but no
`sessionId` field at all, so the response cannot name a session for a
follow-up `GET /status/...` by session id (that variant's status route is
keyed by `userId`). -/
theorem variantA_response_lacks_session_id_cx :
    (startPairingProcessA false false (some "TOXI-CMD1") initA).responses =
      [{ status := 200, success := some true,
         pairingCode := some "TOXI-CMD1", sessionId := none }] := by
  decide

/-- Claim C7 (corrected): in the stable part_000 variant, a `/pair` request
whose socket opens and whose pairing-code request succeeds is answered with
`200 {success: true, pairingCode, sessionId}`, and querying
`GET /status/:sessionId` with that `sessionId` afterwards reports
`{success: true, connected: false}`.  The first `src/index.js` variant omits
`sessionId` from its success response, and part_001 returns neither a
pairing code nor a session id in its immediate reply. -/
theorem stable_variant_success_response_and_status (sid code : String) :
    (runD (initD sid) [EventD.connOpen (some code)]).responses =
      [{ status := 200, success := some true, pairingCode := some code,
         sessionId := some sid }] ∧
    statusRouteD (runD (initD sid) [EventD.connOpen (some code)]) sid =
      { success := true, connected := false } := by
  constructor
  · simp [runD, stepD, initD]
  · simp [runD, stepD, initD, statusRouteD]

/-- Claim C8 counterexample: in the stable part_000 variant a session that
is awaiting its pairing code (no reply sent yet) is not left unchanged by a
`close` event — the handler answers the HTTP caller with a 500, deletes the
registry entry and removes the session directory. -/
theorem stable_variant_close_not_benign_cx :
    (stepD (initD "SESSIDCL34") EventD.connClose).responses.length = 1 ∧
    (stepD (initD "SESSIDCL34") EventD.connClose).registry = none ∧
    (stepD (initD "SESSIDCL34") EventD.connClose).files = false := by
  decide

/-- Claim C8 (corrected): a `close` connection event is benign only in the
first `src/index.js` variant, whose handler just logs — the state, the
registry, the files and the response stream are all unchanged.  In the
stable part_000 variant every `close` removes the registry entry and the
session directory, and additionally answers the HTTP caller with a 500 when
no reply has been sent yet. -/
theorem close_event_effects :
    (∀ s : StateA, stepA s EventA.connClose = s) ∧
    (∀ s : StateD,
        (stepD s EventD.connClose).registry = none ∧
        (stepD s EventD.connClose).files = false ∧
        (stepD s EventD.connClose).responses =
          s.responses ++
            (if s.responded then []
             else
               [{ status := 500, success := some false, pairingCode := none,
                  sessionId := none }])) := by
  constructor
  · intro s; rfl
  · intro s
    by_cases hr : s.responded <;> simp [stepD, hr]
